import Mathlib

/-
Shallow embedding of src/Coordonates_cadastral_number.py.

Conventions of the embedding:
- Python floats are modelled as rationals; the pyproj EPSG:3844 to EPSG:4326
  transform (built with always_xy=True, so each output pair is (lon, lat))
  is an abstract parameter T over coordinate pairs.
- Python values that may be None are Option; a Python statement that can
  raise is modelled with Except PyError, naming the exception class that
  Python would raise at that point.
- A Python set of coordinate pairs is a Finset.
-/

/-- Exception classes that the Python code can raise at the modelled
program points. -/
inductive PyError where
  | indexError
  | keyError
  | zeroDivisionError
  | jsonDecodeError
  | typeError
  | valueError
deriving DecidableEq, Repr

/-- The value of the "geometry" key of a feature: an object with a
"rings" key holding a list of rings, each ring a list of (x, y) pairs. -/
structure Geometry where
  rings : List (List (ℚ × ℚ))
deriving DecidableEq, Repr

/-- One element of the "features" array. geometry = none models a feature
whose "geometry" key is missing or null, in which case the subscript
chain in convert_coordinates raises. -/
structure Feature where
  geometry : Option Geometry
deriving DecidableEq, Repr

/-- A parsed JSON response body, as accessed by the code: an object with a
"features" key holding a list of features. Such a dict is truthy. -/
structure JsonData where
  features : List Feature
deriving DecidableEq, Repr

/-- The two shapes of value returned by convert_coordinates in Python:
the triple (None, None, None), or (converted_coordinates, central_lat,
central_lon). -/
inductive ConvOut where
  | noneTriple
  | triple (coords : List (ℚ × ℚ)) (central_lat central_lon : ℚ)
deriving DecidableEq, Repr

/-- Embedding of convert_coordinates (lines 36-61). The argument json_data
is Option JsonData, none standing for a falsy json_data, so the if on
line 50 takes the else branch exactly on none. On a truthy json_data the
code reads features[0] (IndexError when the list is empty), then the
geometry key (KeyError when missing), builds converted_coordinates by
extending an accumulator with the transformed points of each ring in
order, and divides the per-axis sums by len(converted_coordinates)
(ZeroDivisionError when that length is zero). central_lat is the mean of
the FIRST components and central_lon the mean of the SECOND components,
exactly as on lines 57-58. -/
def convert_coordinates (T : ℚ × ℚ → ℚ × ℚ) :
    Option JsonData → Except PyError ConvOut
  | none => .ok .noneTriple
  | some jd =>
    match jd.features with
    | [] => .error .indexError
    | f :: _ =>
      match f.geometry with
      | none => .error .keyError
      | some g =>
        let cc := g.rings.foldl (fun acc ring => acc ++ ring.map T) []
        if cc.length = 0 then .error .zeroDivisionError
        else .ok (.triple cc
          ((cc.map Prod.fst).sum / (cc.length : ℚ))
          ((cc.map Prod.snd).sum / (cc.length : ℚ)))

/-- An HTTP response as observed by fetch_json: a status code and, when the
body parses as the expected JSON shape, the parsed body; body = none
models a body that is not valid JSON, on which response.json() raises. -/
structure HttpResponse where
  status : Nat
  body : Option JsonData
deriving DecidableEq, Repr

/-- Embedding of fetch_json (lines 18-34). On status 200 it returns
response.json(), which raises when the body is malformed; on any other
status it shows an error message and returns None. -/
def fetch_json (r : HttpResponse) : Except PyError (Option JsonData) :=
  if r.status = 200 then
    match r.body with
    | some j => .ok (some j)
    | none => .error .jsonDecodeError
  else
    .ok none

/-- Embedding of the list comprehension on line 335: from the candidate
vertex list keep exactly the pairs not already in the seen set, in their
original relative order. -/
def dedupFilter (cands : List (ℚ × ℚ)) (seen : Finset (ℚ × ℚ)) :
    List (ℚ × ℚ) :=
  cands.filter (fun c => c ∉ seen)

/-- Embedding of unique_coordinates.update(unique_converted_coordinates)
on line 344: insert every kept vertex into the seen set. -/
def updateSeen (seen : Finset (ℚ × ℚ)) (kept : List (ℚ × ℚ)) :
    Finset (ℚ × ℚ) :=
  seen ∪ kept.toFinset

/-- The per-record inputs consumed by one iteration of the processing loop
in main (lines 323-360): the metadata columns of the row, the url
extracted from the link html (none when the regex finds no href), and the
HTTP response that the GET for that url would produce. -/
structure BatchItem where
  judet : String
  comuna : String
  nrcf : Int
  url : Option String
  resp : HttpResponse
deriving Repr

/-- The mutable state of the processing loop in main (lines 315-321): the
six parallel accumulator lists and the unique_coordinates set. -/
structure LoopState where
  converted_coordinates_list : List (Option (List (ℚ × ℚ)))
  central_lat_list : List (Option ℚ)
  central_lon_list : List (Option ℚ)
  judet_list : List (Option String)
  comuna_list : List (Option String)
  nrcf_list : List (Option Int)
  unique_coordinates : Finset (ℚ × ℚ)

/-- The initial loop state of a processing run (lines 315-321): six empty
lists and an empty unique_coordinates set. -/
def initState : LoopState :=
  ⟨[], [], [], [], [], [], ∅⟩

/-- The all-None row appended on lines 346-359 when the url is absent or
fetch_json returned None. -/
def appendNones (st : LoopState) : LoopState :=
  { st with
    converted_coordinates_list := st.converted_coordinates_list ++ [none]
    central_lat_list := st.central_lat_list ++ [none]
    central_lon_list := st.central_lon_list ++ [none]
    judet_list := st.judet_list ++ [none]
    comuna_list := st.comuna_list ++ [none]
    nrcf_list := st.nrcf_list ++ [none] }

/-- One iteration of the processing loop (lines 323-360). When the url is
present, fetch_json runs (and any exception it raises propagates); on a
truthy json_data, convert_coordinates runs (again propagating any
exception), the kept vertices are computed against the seen set as it
stood before this record, the six columns are appended, and only then is
the seen set updated with the kept vertices. The noneTriple branch is
unreachable here because json_data is truthy, but if taken Python would
raise TypeError iterating None on line 335. -/
def processRecord (T : ℚ × ℚ → ℚ × ℚ) (it : BatchItem) (st : LoopState) :
    Except PyError LoopState :=
  match it.url with
  | none => .ok (appendNones st)
  | some _ =>
    match fetch_json it.resp with
    | .error e => .error e
    | .ok none => .ok (appendNones st)
    | .ok (some jd) =>
      match convert_coordinates T (some jd) with
      | .error e => .error e
      | .ok .noneTriple => .error .typeError
      | .ok (.triple coords clat clon) =>
        let kept := dedupFilter coords st.unique_coordinates
        .ok
          { converted_coordinates_list :=
              st.converted_coordinates_list ++ [some kept]
            central_lat_list := st.central_lat_list ++ [some clat]
            central_lon_list := st.central_lon_list ++ [some clon]
            judet_list := st.judet_list ++ [some it.judet]
            comuna_list := st.comuna_list ++ [some it.comuna]
            nrcf_list := st.nrcf_list ++ [some it.nrcf]
            unique_coordinates := updateSeen st.unique_coordinates kept }

/-- The whole processing loop: records are handled sequentially in input
order; an uncaught exception in one iteration aborts the loop, leaving
the remaining records unprocessed. -/
def processBatch (T : ℚ × ℚ → ℚ × ℚ) :
    List BatchItem → LoopState → Except PyError LoopState
  | [], st => .ok st
  | it :: rest, st =>
    match processRecord T it st with
    | .error e => .error e
    | .ok st2 => processBatch T rest st2

/-- A pending lookup request as stored in st.session_state.recorduri
(lines 222-229): a dict with six keys, compared by structural equality
by the Python in operator. -/
structure LookupRecord where
  judet : String
  judet_ID : Int
  comuna : String
  comuna_ID : Int
  numarCarteFunciara : Int
  link : String
deriving DecidableEq, Repr

/-- Embedding of the Add button insertion (lines 233-234) and of the
per-record check of the dummy-data loop (lines 265-267): append the
record only when no structurally equal record is already present. -/
def addRecord (recorduri : List LookupRecord) (r : LookupRecord) :
    List LookupRecord :=
  if r ∈ recorduri then recorduri else recorduri ++ [r]

/-- Embedding of the Add Dummy Data loop (lines 265-267): each dummy
record is added through the same membership check, in order. -/
def addDummyData (recorduri : List LookupRecord)
    (dummy : List LookupRecord) : List LookupRecord :=
  dummy.foldl addRecord recorduri

/-- Embedding of delete_record (lines 277-280):
st.session_state.recorduri.pop(index) removes the element at the given
position. -/
def deleteRecord (recorduri : List LookupRecord) (i : Nat) :
    List LookupRecord :=
  recorduri.eraseIdx i

/-- One row of the dataframe handed to create_output_dataframe
(lines 362-369): the six columns built from the loop accumulator lists.
Fields are Option because failed records contribute None in every
column. -/
structure InRecord where
  county : Option String
  uat : Option String
  cadNum : Option Int
  coords : Option (List (ℚ × ℚ))
  centralLat : Option ℚ
  centralLon : Option ℚ
deriving Repr

/-- One row of the dataframe returned by create_output_dataframe, after
the explode and the Lat/Long split, with the two link columns
(lines 157-181). lat and long are Option because an exploded empty list
leaves NaN in the coordinate cell. -/
structure OutRow where
  county : Option String
  uat : Option String
  cadNum : Option Int
  centralLat : Option ℚ
  centralLon : Option ℚ
  lat : Option ℚ
  long : Option ℚ
  gmapsLink : String
  gmapsLinkCentral : String
deriving Repr

/-- Deterministic rendering of a rational, standing for the
numeric-to-string formatting that astype(str) performs on a float
column. The claims about the link columns depend only on which value is
placed in which position of the template, not on the digit syntax. -/
def ratStr (q : ℚ) : String :=
  toString q.num ++ "/" ++ toString q.den

/-- Rendering of one cell of a float column under astype(str); a missing
value prints as its NaN text. -/
def cellStr : Option ℚ → String
  | some q => ratStr q
  | none => "nan"

/-- The Google Maps link template of lines 176 and 179: the first
argument is pasted before the comma and the second after it. -/
def mapsLinkCell (a b : Option ℚ) : String :=
  "https://maps.google.com/?q=" ++ cellStr a ++ "," ++ cellStr b

/-- Embedding of df_output.explode on line 167, with the documented
pandas semantics for one cell: a list cell yields one row per element; a
row whose cell is an EMPTY list yields one row with NaN in that cell; a
scalar (None) cell is kept unchanged as one row. -/
def explodeCell : Option (List (ℚ × ℚ)) → List (Option (ℚ × ℚ))
  | none => [none]
  | some [] => [none]
  | some (p :: tl) => (p :: tl).map some

/-- The output row built on lines 170-179 from one exploded row: Lat
takes the FIRST component of the coordinate cell and Long the SECOND;
the per-vertex link is the template applied to (Lat, Long) in that
order, while the central-point link is the template applied to
(Central_Lon, Central_Lat) in that order. A NaN cell leaves NaN in both
Lat and Long. -/
def buildRow (r : InRecord) (cell : Option (ℚ × ℚ)) : OutRow :=
  let latv := cell.map Prod.fst
  let lonv := cell.map Prod.snd
  { county := r.county
    uat := r.uat
    cadNum := r.cadNum
    centralLat := r.centralLat
    centralLon := r.centralLon
    lat := latv
    long := lonv
    gmapsLink := mapsLinkCell latv lonv
    gmapsLinkCentral := mapsLinkCell r.centralLon r.centralLat }

/-- The rows contributed by one input record after explode and split. -/
def rowsFor (r : InRecord) : List OutRow :=
  (explodeCell r.coords).map (buildRow r)

/-- Embedding of create_output_dataframe (lines 136-181). The explode of
line 167 concatenates, in record order, each record's exploded cells.
Line 170 then rebuilds a frame from the list of cells: pandas decides
the shape of pd.DataFrame(cells) from the FIRST element, so when the
first exploded cell is a coordinate pair the frame has two columns (a
later NaN cell becoming a NaN row), and when the first exploded cell is
NaN or None the frame has a single column and the assignment to the two
columns Lat and Long raises ValueError; an empty cell list likewise
yields a frame with no columns and the same ValueError. -/
def create_output_dataframe (records : List InRecord) :
    Except PyError (List OutRow) :=
  match records.flatMap (fun r => (explodeCell r.coords).map (fun c => (r, c))) with
  | [] => .error .valueError
  | (_, none) :: _ => .error .valueError
  | (_, some _) :: _ => .ok (records.flatMap rowsFor)

/-- The accumulator loop of lines 54-56 appends the transformed rings in
order: folding extend over the rings equals the flattening of the
per-ring transforms. -/
theorem foldl_append_map_eq (T : ℚ × ℚ → ℚ × ℚ)
    (rings : List (List (ℚ × ℚ))) (acc : List (ℚ × ℚ)) :
    rings.foldl (fun a r => a ++ r.map T) acc
      = acc ++ (rings.map (fun r => r.map T)).flatten := by
  induction rings generalizing acc with
  | nil => simp
  | cons r rs ih => simp [ih]

/-- A sample geometry with one ring of two points, used to instantiate
hypotheses of the theorems at concrete inputs. -/
def gSample : Geometry := ⟨[[(1, 2), (3, 4)]]⟩

/-- A sample parsed response holding gSample. -/
def jdSample : JsonData := ⟨[⟨some gSample⟩]⟩

/-- A sample parsed response whose single feature has an empty rings
list, so the geometry holds zero points in total. -/
def jdZeroPoints : JsonData := ⟨[⟨some ⟨[]⟩⟩]⟩

/-- C1, counterexample: a present geometry whose rings contain zero total
points does NOT give the all-None triple; convert_coordinates reaches
sum/len with len zero and raises ZeroDivisionError. -/
theorem C1_counterexample :
    convert_coordinates (fun p => p) (some jdZeroPoints)
        = .error .zeroDivisionError
      ∧ convert_coordinates (fun p => p) (some jdZeroPoints)
        ≠ .ok .noneTriple := by
  refine ⟨rfl, ?_⟩
  intro h
  rw [show convert_coordinates (fun p => p) (some jdZeroPoints)
      = .error .zeroDivisionError from rfl] at h
  exact Except.noConfusion h

/-- C1, amended: an absent (falsy) json_data yields the all-None triple
without raising, but a present geometry whose rings hold zero total
points reaches the division by the vertex count with count zero, raising
ZeroDivisionError instead of returning the None triple. -/
theorem C1_amended :
    (∀ T : ℚ × ℚ → ℚ × ℚ, convert_coordinates T none = .ok .noneTriple)
    ∧ (∀ (T : ℚ × ℚ → ℚ × ℚ) (jd : JsonData) (f : Feature)
        (fs : List Feature) (g : Geometry),
        jd.features = f :: fs → f.geometry = some g →
        (g.rings.map List.length).sum = 0 →
        convert_coordinates T (some jd) = .error .zeroDivisionError) := by
  constructor
  · intro T
    rfl
  · intro T jd f fs g hf hg hsum
    rcases jd with ⟨feats⟩
    simp only at hf
    subst hf
    have hcc : ((g.rings).foldl (fun a r => a ++ r.map T) []).length = 0 := by
      rw [foldl_append_map_eq, List.nil_append, List.length_flatten]
      simpa [List.map_map, Function.comp_def, List.length_map] using hsum
    simp [convert_coordinates, hg, hcc]

/-- C1, witness: the amended theorem applied at concrete inputs. -/
theorem C1_amended_witness :
    convert_coordinates (fun p => p) none = .ok .noneTriple
      ∧ convert_coordinates (fun p => p) (some jdZeroPoints)
        = .error .zeroDivisionError :=
  ⟨C1_amended.1 (fun p => p),
   C1_amended.2 (fun p => p) jdZeroPoints ⟨some ⟨[]⟩⟩ [] ⟨[]⟩ rfl rfl
     (by decide)⟩

/-- C3: on a geometry with at least one point, convert_coordinates
returns the per-ring transforms concatenated in input order, with length
the sum of the per-ring point counts, and a centroid that is the
arithmetic mean of the first components and of the second components of
the returned vertices, independently per axis. -/
theorem C3_transform_flatten_centroid (T : ℚ × ℚ → ℚ × ℚ) (f : Feature)
    (fs : List Feature) (g : Geometry) (hg : f.geometry = some g)
    (hpos : 0 < (g.rings.map List.length).sum) :
    ∃ coords clat clon,
      convert_coordinates T (some ⟨f :: fs⟩) = .ok (.triple coords clat clon)
      ∧ coords = (g.rings.map (fun ring => ring.map T)).flatten
      ∧ coords.length = (g.rings.map List.length).sum
      ∧ clat = (coords.map Prod.fst).sum / (coords.length : ℚ)
      ∧ clon = (coords.map Prod.snd).sum / (coords.length : ℚ) := by
  have hcc : ((g.rings).foldl (fun a r => a ++ r.map T) [])
      = (g.rings.map (fun ring => ring.map T)).flatten := by
    rw [foldl_append_map_eq, List.nil_append]
  have hlen : ((g.rings.map (fun ring => ring.map T)).flatten).length
      = (g.rings.map List.length).sum := by
    rw [List.length_flatten]
    simp [List.map_map, Function.comp_def, List.length_map]
  refine ⟨(g.rings.map (fun ring => ring.map T)).flatten, _, _, ?_, rfl, hlen,
    rfl, rfl⟩
  simp only [convert_coordinates, hg, hcc]
  rw [if_neg]
  rw [hlen]
  omega

/-- C3, witness: the theorem applied at a concrete one-ring geometry. -/
theorem C3_witness :
    (⟨some gSample⟩ : Feature).geometry = some gSample
      ∧ 0 < (gSample.rings.map List.length).sum
      ∧ ∃ coords clat clon,
          convert_coordinates (fun p => p) (some ⟨[⟨some gSample⟩]⟩)
              = .ok (.triple coords clat clon)
            ∧ coords = (gSample.rings.map (fun ring => ring.map (fun p => p))).flatten
            ∧ coords.length = (gSample.rings.map List.length).sum
            ∧ clat = (coords.map Prod.fst).sum / (coords.length : ℚ)
            ∧ clon = (coords.map Prod.snd).sum / (coords.length : ℚ) :=
  ⟨rfl, by decide,
   C3_transform_flatten_centroid (fun p => p) ⟨some gSample⟩ [] gSample rfl
     (by decide)⟩

/-- C8: convert_coordinates is a pure function of its argument; the
embedding takes no state, so two runs on equal inputs return equal
vertex lists and centroid values. -/
theorem C8_transform_deterministic (T : ℚ × ℚ → ℚ × ℚ)
    (j1 j2 : Option JsonData) (h : j1 = j2) :
    convert_coordinates T j1 = convert_coordinates T j2 := by
  rw [h]

/-- C8, witness: the theorem applied at a concrete input. -/
theorem C8_witness :
    some jdSample = some jdSample
      ∧ convert_coordinates (fun p => p) (some jdSample)
        = convert_coordinates (fun p => p) (some jdSample) :=
  ⟨rfl, C8_transform_deterministic (fun p => p) (some jdSample)
    (some jdSample) rfl⟩

/-- First record of the dedup scenario: two vertices, duplicate-free. -/
def l1Sample : List (ℚ × ℚ) := [(1, 1), (2, 2)]

/-- Second record of the dedup scenario: shares exactly (2, 2) with
l1Sample and is otherwise duplicate-free. -/
def l2Sample : List (ℚ × ℚ) := [(2, 2), (3, 3)]

/-- The single shared vertex of the dedup scenario. -/
def vSample : ℚ × ℚ := (2, 2)

/-- C4: the collector keeps exactly the pairs not already seen, in their
original relative order (a sublist), and inserts every kept vertex into
the seen set; for two duplicate-free records sharing exactly one pair,
starting from the empty seen set, the first record keeps everything
including the shared pair, the second record drops exactly it, and the
kept totals are len1 + len2 - 1. -/
theorem C4_collector_dedup (l1 l2 : List (ℚ × ℚ)) (v : ℚ × ℚ)
    (h1 : l1.Nodup) (h2 : l2.Nodup) (hv1 : v ∈ l1) (hv2 : v ∈ l2)
    (hshare : ∀ x, x ∈ l1 → x ∈ l2 → x = v) :
    dedupFilter l1 ∅ = l1
    ∧ (∀ x, x ∈ dedupFilter l2 (updateSeen ∅ (dedupFilter l1 ∅))
        ↔ x ∈ l2 ∧ x ∉ l1)
    ∧ (dedupFilter l2 (updateSeen ∅ (dedupFilter l1 ∅))).Sublist l2
    ∧ (∀ x, x ∈ dedupFilter l1 ∅ → x ∈ updateSeen ∅ (dedupFilter l1 ∅))
    ∧ v ∈ dedupFilter l1 ∅
    ∧ v ∉ dedupFilter l2 (updateSeen ∅ (dedupFilter l1 ∅))
    ∧ (dedupFilter l1 ∅).length
        + (dedupFilter l2 (updateSeen ∅ (dedupFilter l1 ∅))).length
        = l1.length + l2.length - 1 := by
  have hkept1 : dedupFilter l1 ∅ = l1 := by
    simp [dedupFilter]
  have hseen1 : updateSeen ∅ (dedupFilter l1 ∅) = l1.toFinset := by
    rw [hkept1]
    simp [updateSeen]
  refine ⟨hkept1, ?_, ?_, ?_, ?_, ?_, ?_⟩
  · intro x
    rw [hseen1]
    simp [dedupFilter, List.mem_filter]
  · rw [hseen1]
    exact List.filter_sublist l2
  · intro x hx
    rw [hseen1]
    rw [hkept1] at hx
    simpa using hx
  · rw [hkept1]
    exact hv1
  · rw [hseen1]
    simp [dedupFilter, List.mem_filter, hv1, hv2]
  · rw [hseen1, hkept1]
    have hcongr : ∀ x ∈ l2,
        (decide (x ∉ l1.toFinset)) = (x != v) := by
      intro x hx
      by_cases hxv : x = v
      · subst hxv
        simp [hv1]
      · have hx1 : x ∉ l1 := fun hmem => hxv (hshare x hmem hx)
        simp [hx1, hxv]
    have hlen2 : (dedupFilter l2 l1.toFinset).length = l2.length - 1 := by
      unfold dedupFilter
      rw [List.filter_congr hcongr,
        (List.Nodup.erase_eq_filter h2 v).symm,
        List.length_erase_of_mem hv2]
    rw [hlen2]
    have hpos : 0 < l2.length := List.length_pos_of_mem hv2
    omega

/-- C4, witness: the theorem applied to the two sample records. -/
theorem C4_witness :
    l1Sample.Nodup ∧ l2Sample.Nodup
    ∧ dedupFilter l1Sample ∅ = l1Sample
    ∧ vSample ∈ dedupFilter l1Sample ∅
    ∧ vSample ∉ dedupFilter l2Sample (updateSeen ∅ (dedupFilter l1Sample ∅))
    ∧ (dedupFilter l1Sample ∅).length
        + (dedupFilter l2Sample (updateSeen ∅ (dedupFilter l1Sample ∅))).length
        = l1Sample.length + l2Sample.length - 1 := by
  have h := C4_collector_dedup l1Sample l2Sample vSample (by decide)
    (by decide) (by decide) (by decide)
    (by
      intro x hx1 hx2
      fin_cases hx1
      · exact absurd hx2 (by decide)
      · rfl)
  exact ⟨by decide, by decide, h.1, h.2.2.2.2.1, h.2.2.2.2.2.1,
    h.2.2.2.2.2.2⟩

/-- C10: within a single record the dedup filter suppresses nothing that
is not already in the seen set; a pair occurring k times among the
candidates and absent from the seen set is kept k times. -/
theorem C10_within_record_duplicates_kept (l : List (ℚ × ℚ))
    (s : Finset (ℚ × ℚ)) (v : ℚ × ℚ) (hv : v ∉ s) :
    (dedupFilter l s).count v = l.count v := by
  unfold dedupFilter
  exact List.count_filter (by simpa using hv)

/-- C10, witness: a record holding the same pair twice keeps both
occurrences when the pair is not yet seen. -/
theorem C10_witness :
    ((1, 1) : ℚ × ℚ) ∉ (∅ : Finset (ℚ × ℚ))
    ∧ (dedupFilter [(1, 1), (1, 1), (2, 2)] ∅).count ((1, 1) : ℚ × ℚ)
      = ([((1 : ℚ), (1 : ℚ)), (1, 1), (2, 2)]).count ((1, 1) : ℚ × ℚ) :=
  ⟨by decide,
   C10_within_record_duplicates_kept [(1, 1), (1, 1), (2, 2)] ∅ (1, 1)
     (by decide)⟩

/-- C6: for a record whose fetch and conversion succeed, the loop appends
the centroid values exactly as returned by convert_coordinates from the
FULL transformed vertex list, for every loop state; the appended centroid
does not mention the seen set, while the appended vertex list is the
dedup-filtered one. So a record retains its own centroid even when some
or all of its vertices are suppressed. -/
theorem C6_centroid_unaffected_by_dedup (T : ℚ × ℚ → ℚ × ℚ)
    (it : BatchItem) (u : String) (jd : JsonData)
    (coords : List (ℚ × ℚ)) (clat clon : ℚ)
    (hurl : it.url = some u)
    (hfetch : fetch_json it.resp = .ok (some jd))
    (hconv : convert_coordinates T (some jd)
      = .ok (.triple coords clat clon)) :
    ∀ st : LoopState,
      processRecord T it st = .ok
        { converted_coordinates_list := st.converted_coordinates_list
            ++ [some (dedupFilter coords st.unique_coordinates)]
          central_lat_list := st.central_lat_list ++ [some clat]
          central_lon_list := st.central_lon_list ++ [some clon]
          judet_list := st.judet_list ++ [some it.judet]
          comuna_list := st.comuna_list ++ [some it.comuna]
          nrcf_list := st.nrcf_list ++ [some it.nrcf]
          unique_coordinates := updateSeen st.unique_coordinates
            (dedupFilter coords st.unique_coordinates) } := by
  intro st
  simp [processRecord, hurl, hfetch, hconv]

/-- A sample batch item whose fetch succeeds with jdSample. -/
def itemSample : BatchItem :=
  ⟨"Arges", "Ungheni", 12476, some "u", ⟨200, some jdSample⟩⟩

/-- A sample loop state whose seen set already holds the first vertex of
jdSample, so the dedup filter suppresses it. -/
def stSample : LoopState :=
  ⟨[], [], [], [], [], [], {(1, 2)}⟩

/-- C6, witness: the theorem applied to itemSample at a state whose seen
set suppresses one of the two vertices; the appended centroid is still
the mean of both. -/
theorem C6_witness :
    itemSample.url = some "u"
    ∧ fetch_json itemSample.resp = .ok (some jdSample)
    ∧ convert_coordinates (fun p => p) (some jdSample)
      = .ok (.triple [(1, 2), (3, 4)] 2 3)
    ∧ processRecord (fun p => p) itemSample stSample = .ok
        { converted_coordinates_list := stSample.converted_coordinates_list
            ++ [some (dedupFilter [(1, 2), (3, 4)] stSample.unique_coordinates)]
          central_lat_list := stSample.central_lat_list ++ [some 2]
          central_lon_list := stSample.central_lon_list ++ [some 3]
          judet_list := stSample.judet_list ++ [some itemSample.judet]
          comuna_list := stSample.comuna_list ++ [some itemSample.comuna]
          nrcf_list := stSample.nrcf_list ++ [some itemSample.nrcf]
          unique_coordinates := updateSeen stSample.unique_coordinates
            (dedupFilter [(1, 2), (3, 4)] stSample.unique_coordinates) } := by
  have hconv : convert_coordinates (fun p => p) (some jdSample)
      = .ok (.triple [(1, 2), (3, 4)] 2 3) := by
    simp [convert_coordinates, jdSample, gSample]
    norm_num
  exact ⟨rfl, rfl, hconv,
    C6_centroid_unaffected_by_dedup (fun p => p) itemSample "u" jdSample
      [(1, 2), (3, 4)] 2 3 rfl rfl hconv stSample⟩

/-- C2, counterexample: a 200 response whose valid JSON body has zero
features does not degrade to None; convert_coordinates raises IndexError
on features[0] and the batch aborts, so the following record is never
processed. -/
theorem C2_counterexample :
    processBatch (fun p => p)
        [⟨"Gorj", "Pades", 39107, some "u2", ⟨200, some ⟨[]⟩⟩⟩, itemSample]
        initState
      = .error .indexError := by
  rfl

/-- C2, amended: only a non-200 status degrades the record to an all-None
row and lets the batch continue; a malformed JSON body raises from
response.json, and a 200 response with zero features or a missing
geometry raises from convert_coordinates, each aborting the batch. -/
theorem C2_amended :
    (∀ (T : ℚ × ℚ → ℚ × ℚ) (it : BatchItem) (u : String) (st : LoopState)
        (rest : List BatchItem),
      it.url = some u → it.resp.status ≠ 200 →
      processRecord T it st = .ok (appendNones st)
        ∧ processBatch T (it :: rest) st
          = processBatch T rest (appendNones st))
    ∧ (∀ (T : ℚ × ℚ → ℚ × ℚ) (it : BatchItem) (u : String) (st : LoopState)
        (rest : List BatchItem),
      it.url = some u → it.resp.status = 200 → it.resp.body = none →
      processBatch T (it :: rest) st = .error .jsonDecodeError)
    ∧ (∀ (T : ℚ × ℚ → ℚ × ℚ) (it : BatchItem) (u : String) (st : LoopState)
        (rest : List BatchItem),
      it.url = some u → it.resp.status = 200 → it.resp.body = some ⟨[]⟩ →
      processBatch T (it :: rest) st = .error .indexError)
    ∧ (∀ (T : ℚ × ℚ → ℚ × ℚ) (it : BatchItem) (u : String) (st : LoopState)
        (rest : List BatchItem) (fs : List Feature),
      it.url = some u → it.resp.status = 200 →
      it.resp.body = some ⟨⟨none⟩ :: fs⟩ →
      processBatch T (it :: rest) st = .error .keyError) := by
  refine ⟨?_, ?_, ?_, ?_⟩
  · intro T it u st rest hurl hstatus
    have hrec : processRecord T it st = .ok (appendNones st) := by
      simp [processRecord, hurl, fetch_json, hstatus]
    exact ⟨hrec, by simp [processBatch, hrec]⟩
  · intro T it u st rest hurl hstatus hbody
    simp [processBatch, processRecord, hurl, fetch_json, hstatus, hbody]
  · intro T it u st rest hurl hstatus hbody
    simp [processBatch, processRecord, hurl, fetch_json, hstatus, hbody,
      convert_coordinates]
  · intro T it u st rest fs hurl hstatus hbody
    simp [processBatch, processRecord, hurl, fetch_json, hstatus, hbody,
      convert_coordinates]

/-- C2, witness: the non-200 part of the amended theorem applied to a
concrete 404 item, and the zero-features part applied to a concrete 200
item. -/
theorem C2_amended_witness :
    processRecord (fun p => p)
        ⟨"Arges", "Ungheni", 12476, some "u3", ⟨404, none⟩⟩ initState
      = .ok (appendNones initState)
    ∧ processBatch (fun p => p)
        [⟨"Arges", "Ungheni", 12476, some "u3", ⟨404, none⟩⟩] initState
      = processBatch (fun p => p) [] (appendNones initState)
    ∧ processBatch (fun p => p)
        [⟨"Gorj", "Pades", 39107, some "u4", ⟨200, some ⟨[]⟩⟩⟩] initState
      = .error .indexError :=
  ⟨(C2_amended.1 (fun p => p) _ "u3" initState [] rfl (by decide)).1,
   (C2_amended.1 (fun p => p) _ "u3" initState [] rfl (by decide)).2,
   C2_amended.2.2.1 (fun p => p) _ "u4" initState [] rfl rfl rfl⟩

/-- Adding a record through the membership check preserves the
no-duplicates invariant of the store. -/
theorem addRecord_preserves_nodup (store : List LookupRecord)
    (r : LookupRecord) (h : store.Nodup) : (addRecord store r).Nodup := by
  unfold addRecord
  by_cases hr : r ∈ store
  · simpa [hr] using h
  · simp only [hr, if_false]
    rw [List.nodup_append]
    refine ⟨h, List.nodup_singleton r, ?_⟩
    intro a ha
    simp only [List.mem_singleton]
    intro hae
    exact hr (hae ▸ ha)

/-- C9: the record store never gains a structurally equal duplicate: the
Add-button insertion, every step of the dummy-data insertion loop, and
deletion by index all preserve the no-duplicates invariant. -/
theorem C9_store_nodup_invariant (store : List LookupRecord)
    (h : store.Nodup) :
    (∀ r, (addRecord store r).Nodup)
    ∧ (∀ ds, (addDummyData store ds).Nodup)
    ∧ (∀ i, (deleteRecord store i).Nodup) := by
  refine ⟨fun r => addRecord_preserves_nodup store r h, ?_, ?_⟩
  · intro ds
    unfold addDummyData
    induction ds generalizing store with
    | nil => exact h
    | cons d ds ih =>
      exact ih (addRecord store d) (addRecord_preserves_nodup store d h)
  · intro i
    exact (store.eraseIdx_sublist i).nodup h

/-- The first dummy record of lines 247-254. -/
def dummyRecord1 : LookupRecord :=
  ⟨"Arges", 36, "Ungheni", 19560, 12476,
   "https://geoportal.ancpi.ro/maps/rest/services/eterra3_publish/MapServer/1/query?f=json&outFields=NATIONAL_CADASTRAL_REFERENCE&spatialRel=esriSpatialRelIntersects&where=INSPIRE_ID%20%3D%20%27RO.38.19560.12476%27"⟩

/-- The second dummy record of lines 255-262. -/
def dummyRecord2 : LookupRecord :=
  ⟨"Gorj", 181, "Pades", 81095, 39107,
   "https://geoportal.ancpi.ro/maps/rest/services/eterra3_publish/MapServer/1/query?f=json&outFields=NATIONAL_CADASTRAL_REFERENCE&spatialRel=esriSpatialRelIntersects&where=INSPIRE_ID%20%3D%20%27RO.181.81095.39107%27"⟩

/-- C9, witness: the theorem applied to concrete stores built from the
dummy records of the source. -/
theorem C9_witness :
    ([dummyRecord1] : List LookupRecord).Nodup
    ∧ (addRecord [dummyRecord1] dummyRecord2).Nodup
    ∧ (addDummyData [] [dummyRecord1, dummyRecord2]).Nodup
    ∧ (deleteRecord [dummyRecord1] 0).Nodup :=
  ⟨List.nodup_singleton dummyRecord1,
   (C9_store_nodup_invariant [dummyRecord1]
     (List.nodup_singleton dummyRecord1)).1 dummyRecord2,
   (C9_store_nodup_invariant [] List.nodup_nil).2.1
     [dummyRecord1, dummyRecord2],
   (C9_store_nodup_invariant [dummyRecord1]
     (List.nodup_singleton dummyRecord1)).2.2 0⟩

/-- Inversion for a successful conversion: the returned central values
are the per-axis means of the full returned vertex list, and that list
is nonempty. -/
theorem convert_ok_inversion (T : ℚ × ℚ → ℚ × ℚ) (jd : JsonData)
    (coords : List (ℚ × ℚ)) (clat clon : ℚ)
    (h : convert_coordinates T (some jd) = .ok (.triple coords clat clon)) :
    clat = (coords.map Prod.fst).sum / (coords.length : ℚ)
    ∧ clon = (coords.map Prod.snd).sum / (coords.length : ℚ)
    ∧ coords ≠ [] := by
  rcases jd with ⟨feats⟩
  cases feats with
  | nil => simp [convert_coordinates] at h
  | cons f fs =>
    cases hg : f.geometry with
    | none => simp [convert_coordinates, hg] at h
    | some g =>
      simp only [convert_coordinates, hg] at h
      by_cases hlen :
          ((g.rings).foldl (fun acc ring => acc ++ ring.map T) []).length = 0
      · simp [hlen] at h
      · simp only [hlen, if_false, Except.ok.injEq, ConvOut.triple.injEq] at h
        obtain ⟨hcc, hlat, hlon⟩ := h
        subst hcc
        subst hlat
        subst hlon
        refine ⟨rfl, rfl, ?_⟩
        intro hnil
        rw [hnil] at hlen
        exact hlen rfl

/-- C7: the centroid field central_lat is the mean of the FIRST
components of the transformed vertices (which, under always_xy output
order, are the longitudes) and central_lon the mean of the SECOND; in
the output table the Lat column holds each vertex first component and
Long its second, the per-vertex link is the template applied to
(Lat, Long), and the central-point link is the template applied to
(Central_Lon, Central_Lat) - the opposite field order. -/
theorem C7_axis_label_swap (T : ℚ × ℚ → ℚ × ℚ) (jd : JsonData)
    (coords : List (ℚ × ℚ)) (clat clon : ℚ)
    (county uat : Option String) (n : Option Int)
    (hconv : convert_coordinates T (some jd)
      = .ok (.triple coords clat clon)) :
    clat = (coords.map Prod.fst).sum / (coords.length : ℚ)
    ∧ clon = (coords.map Prod.snd).sum / (coords.length : ℚ)
    ∧ ∃ rows,
        create_output_dataframe
            [⟨county, uat, n, some coords, some clat, some clon⟩]
          = .ok rows
        ∧ rows = coords.map (fun v =>
            buildRow ⟨county, uat, n, some coords, some clat, some clon⟩
              (some v))
        ∧ rows.length = coords.length
        ∧ ∀ v : ℚ × ℚ,
            (buildRow ⟨county, uat, n, some coords, some clat, some clon⟩
                (some v)).lat = some v.1
            ∧ (buildRow ⟨county, uat, n, some coords, some clat, some clon⟩
                (some v)).long = some v.2
            ∧ (buildRow ⟨county, uat, n, some coords, some clat, some clon⟩
                (some v)).gmapsLink = mapsLinkCell (some v.1) (some v.2)
            ∧ (buildRow ⟨county, uat, n, some coords, some clat, some clon⟩
                (some v)).gmapsLinkCentral
              = mapsLinkCell (some clon) (some clat) := by
  obtain ⟨hlat, hlon, hne⟩ := convert_ok_inversion T jd coords clat clon hconv
  refine ⟨hlat, hlon, ?_⟩
  obtain ⟨p, tl, rfl⟩ : ∃ p tl, coords = p :: tl := by
    cases coords with
    | nil => exact absurd rfl hne
    | cons p tl => exact ⟨p, tl, rfl⟩
  refine ⟨(p :: tl).map (fun v =>
    buildRow ⟨county, uat, n, some (p :: tl), some clat, some clon⟩
      (some v)), ?_, rfl, by simp, ?_⟩
  · unfold create_output_dataframe
    simp [explodeCell, rowsFor, List.map_map, Function.comp_def]
  · intro v
    exact ⟨rfl, rfl, rfl, rfl⟩

/-- C7, witness: the theorem applied to the sample geometry; the central
value stored in the lat-named field is the mean 2 of the first
components. -/
theorem C7_witness :
    convert_coordinates (fun p => p) (some jdSample)
      = .ok (.triple [(1, 2), (3, 4)] 2 3)
    ∧ ∃ rows,
        create_output_dataframe
            [⟨some "Arges", some "Ungheni", some 12476,
              some [(1, 2), (3, 4)], some 2, some 3⟩]
          = .ok rows
        ∧ rows.length = ([((1 : ℚ), (2 : ℚ)), (3, 4)]).length := by
  have hconv : convert_coordinates (fun p => p) (some jdSample)
      = .ok (.triple [(1, 2), (3, 4)] 2 3) := by
    simp [convert_coordinates, jdSample, gSample]
    norm_num
  obtain ⟨-, -, rows, hrows, -, hlen, -⟩ :=
    C7_axis_label_swap (fun p => p) jdSample [(1, 2), (3, 4)] 2 3
      (some "Arges") (some "Ungheni") (some 12476) hconv
  exact ⟨hconv, rows, hrows, hlen⟩

/-- C5, counterexample: the projector applied to a single all-absent
record raises (ValueError from the two-column assignment) instead of
emitting zero rows without raising. -/
theorem C5_counterexample :
    create_output_dataframe [⟨none, none, none, none, none, none⟩]
      = .error .valueError := rfl

/-- C5, amended: when an earlier record supplies a first vertex, a record
whose vertex list is empty or whose fields are all absent contributes
exactly ONE row, with absent Lat and Long, and the rows of subsequent
records are still produced; when such a record comes first the projector
raises ValueError. -/
theorem C5_amended (r1 rE : InRecord) (rs : List InRecord)
    (p : ℚ × ℚ) (tl : List (ℚ × ℚ)) (h1 : r1.coords = some (p :: tl))
    (hE : rE.coords = none ∨ rE.coords = some []) :
    create_output_dataframe (r1 :: rE :: rs)
      = .ok (rowsFor r1 ++ (rowsFor rE ++ rs.flatMap rowsFor))
    ∧ (∃ row, rowsFor rE = [row] ∧ row.lat = none ∧ row.long = none)
    ∧ create_output_dataframe (rE :: r1 :: rs) = .error .valueError := by
  have hrowsE : rowsFor rE = [buildRow rE none] := by
    rcases hE with hE | hE <;> simp [rowsFor, explodeCell, hE]
  refine ⟨?_, ⟨buildRow rE none, hrowsE, rfl, rfl⟩, ?_⟩
  · unfold create_output_dataframe
    simp [explodeCell, h1, rowsFor]
  · unfold create_output_dataframe
    rcases hE with hE | hE <;> simp [explodeCell, hE]

/-- C5, witness: the amended theorem applied to a concrete good record
followed by an all-absent record, and to the two in the other order. -/
theorem C5_witness :
    create_output_dataframe
        [⟨some "Arges", some "Ungheni", some 12476,
          some [(1, 2), (3, 4)], some 2, some 3⟩,
         ⟨none, none, none, none, none, none⟩]
      = .ok (rowsFor ⟨some "Arges", some "Ungheni", some 12476,
              some [(1, 2), (3, 4)], some 2, some 3⟩
          ++ (rowsFor ⟨none, none, none, none, none, none⟩
              ++ ([] : List InRecord).flatMap rowsFor))
    ∧ create_output_dataframe
        [⟨none, none, none, none, none, none⟩,
         ⟨some "Arges", some "Ungheni", some 12476,
          some [(1, 2), (3, 4)], some 2, some 3⟩]
      = .error .valueError := by
  have h := C5_amended
    ⟨some "Arges", some "Ungheni", some 12476,
      some [(1, 2), (3, 4)], some 2, some 3⟩
    ⟨none, none, none, none, none, none⟩ [] (1, 2) [(3, 4)] rfl
    (Or.inl rfl)
  exact ⟨h.1, h.2.2⟩
